import Mathlib

/-!
Shallow embedding of the pyvantage driver (pyvantage/__init__.py) together
with proofs about its transport, dispatcher, request correlator, topology
heuristics and entity state machines.  Python strings are modelled as Lean
strings (lists of characters), Python numbers as rationals or integers, and
Python exceptions as an Except monad.  Each definition is translated from the
function of the source file named in its doc comment.
-/

set_option autoImplicit false

deriving instance DecidableEq for Except

namespace PyVantage

/-- Models Python str.isdigit for ASCII strings: nonempty and all digits. -/
def pyIsdigit (s : String) : Bool :=
  s.length != 0 && s.data.all Char.isDigit

/-- The Python whitespace class used by str.strip. -/
def isPySpace (c : Char) : Bool :=
  c == ' ' || c == '\t' || c == '\n' || c == '\r' || c == '\x0b' || c == '\x0c'

/-- Models Python str.strip on the character list of a string. -/
def pyStrip (l : List Char) : List Char :=
  ((l.dropWhile isPySpace).reverse.dropWhile isPySpace).reverse

/-- Models Python str.startswith. -/
def strStarts (s p : String) : Bool :=
  p.data.isPrefixOf s.data

/-- Digits of a numeral to its natural value (helper for int and float). -/
def digitsToNat (l : List Char) : Nat :=
  l.foldl (fun a c => a * 10 + (c.toNat - 48)) 0

/-- Models Python float(s) for plain decimal literals: surrounding whitespace
stripped, optional sign, an integer part and an optional fractional part.
Returns none where float() would raise ValueError. -/
def pyFloat (s : String) : Option ℚ :=
  let cs := pyStrip s.data
  let sgncs : ℚ × List Char :=
    match cs with
    | '-' :: r => (-1, r)
    | '+' :: r => (1, r)
    | _ => (1, cs)
  let ip := sgncs.2.takeWhile (fun c => c != '.')
  let rest := sgncs.2.dropWhile (fun c => c != '.')
  match rest with
  | [] =>
    if ip ≠ [] ∧ ip.all Char.isDigit then
      some (sgncs.1 * (digitsToNat ip : ℚ))
    else none
  | _ :: fp =>
    if (ip ≠ [] ∨ fp ≠ []) ∧ ip.all Char.isDigit ∧ fp.all Char.isDigit then
      some (sgncs.1 * ((digitsToNat ip : ℚ) + (digitsToNat fp : ℚ) / (10 ^ fp.length : ℚ)))
    else none

/-- Models Python int(s) for decimal literals with optional sign. -/
def pyIntStr (s : String) : Option Int :=
  let cs := pyStrip s.data
  match cs with
  | '-' :: r =>
    if r ≠ [] ∧ r.all Char.isDigit then some (-(digitsToNat r : Int)) else none
  | '+' :: r =>
    if r ≠ [] ∧ r.all Char.isDigit then some (digitsToNat r : Int) else none
  | _ =>
    if cs ≠ [] ∧ cs.all Char.isDigit then some (digitsToNat cs : Int) else none

/-- Models Python round() on a rational: round half to even. -/
def pyRound (q : ℚ) : Int :=
  let f := q.floor
  let r := q - f
  if r < 1/2 then f
  else if 1/2 < r then f + 1
  else if f % 2 = 0 then f else f + 1

/-- Models the int conversion performed by string interpolation of a number
with a %d directive: truncation toward zero. -/
def pyTrunc (q : ℚ) : Int :=
  if 0 ≤ q then q.floor else q.ceil

/-- Separator class of the dispatcher regular expression, one of space or colon. -/
def isSep (c : Char) : Bool :=
  c == ' ' || c == ':'

/-- Models re.split with the space-or-colon class: split at every separator,
keeping empty segments. -/
def pySplitL : List Char → List (List Char)
  | [] => [[]]
  | c :: rest =>
    if isSep c then [] :: pySplitL rest
    else
      match pySplitL rest with
      | [] => [[c]]
      | seg :: segs => (c :: seg) :: segs

/-- A string free of dispatcher separators (space and colon). -/
def sepFree (s : String) : Bool :=
  s.data.all (fun c => !(isSep c))

/-- Models str.replace of a single double-quote character by two of them,
applied to the character list of the string. -/
def doubleQuotes : List Char → List Char
  | [] => []
  | c :: rest =>
    if c = '"' then '"' :: '"' :: doubleQuotes rest
    else c :: doubleQuotes rest

/-- Models str.replace of two consecutive double-quote characters by one:
the left-to-right single-pass scan performed by Python str.replace. -/
def undoubleQuotes : List Char → List Char
  | [] => []
  | [c] => [c]
  | c :: d :: rest =>
    if c = '"' ∧ d = '"' then '"' :: undoubleQuotes rest
    else c :: undoubleQuotes (d :: rest)

/-- Models the Python slice s[1:-1]. -/
def pySlice1m1 (s : String) : String :=
  String.mk ((s.data.drop 1).dropLast)

/-!
Request correlator: class _RequestHelper of pyvantage/__init__.py.
The event set is the list of event tokens handed out to waiters; the action is
an arbitrary transformer of an external state, so that whether the action ran
is observable.  The lock serialises request and notify, so they are modelled
as atomic steps.
-/

/-- State of a _RequestHelper: the list of pending waiter events
(field __events of the source). -/
structure ReqHelper where
  events : List Nat
  deriving DecidableEq

/-- Models _RequestHelper.request: allocate the event fresh, remember whether
the waiter list was empty, append the event, and invoke the action on the
external state only if this caller was first.  Returns the new helper state,
the external state, and the event handed back to the caller. -/
def rhRequest {σ : Type} (h : ReqHelper) (fresh : Nat) (action : σ → σ) (ext : σ) :
    ReqHelper × σ × Nat :=
  let first := h.events.isEmpty
  let h2 : ReqHelper := ⟨h.events ++ [fresh]⟩
  (h2, if first then action ext else ext, fresh)

/-- Models _RequestHelper.notify: empty the waiter list and set every pending
event.  The second component is the updated set of set events. -/
def rhNotify (h : ReqHelper) (eventsSet : List Nat) : ReqHelper × List Nat :=
  (⟨[]⟩, eventsSet ++ h.events)

/-!
Transport round robin: VantageConnection.send_ascii_nl of pyvantage/__init__.py.
-/

/-- State of the connection pool relevant to send_ascii_nl: the round-robin
cursor _iconn, the pool size _num_connections, and the log of writes as
pairs of connection index and line. -/
structure TState where
  iconn : Nat
  num : Nat
  writes : List (Nat × String)
  deriving DecidableEq

/-- Models VantageConnection.send_ascii_nl: write the command on the
connection selected by the cursor, then advance the cursor modulo the pool
size unless the command starts with GET. -/
def sendAsciiNl (st : TState) (cmd : String) : TState :=
  let st1 : TState := { st with writes := st.writes ++ [(st.iconn, cmd)] }
  if strStarts cmd "GET" then st1
  else { st1 with iconn := (st1.iconn + 1) % st1.num }

/-- Sending a whole sequence of lines, in order. -/
def sendAll (st : TState) (lines : List String) : TState :=
  lines.foldl sendAsciiNl st

/-!
Registration: Vantage.register_id of pyvantage/__init__.py, lines 1179 to 1189
(the id-registration block; the following hierarchical-naming block mutates
only the name tables and can raise nothing, so it is not modelled here).
Python dict keys may be None, so map keys are Option String; objects are
identified by a token.
-/

/-- One per-command-type dict of the _ids table: vid to object token. -/
abbrev VidDict := List (Nat × Nat)

/-- The _ids table: command type (or None) to its vid dict. -/
abbrev IdsMap := List (Option String × VidDict)

/-- Dict membership test for the per-command-type dict. -/
def dictHas (d : VidDict) (vid : Nat) : Bool :=
  (d.find? (fun p => p.1 == vid)).isSome

/-- Dict assignment for the per-command-type dict: replace or append. -/
def dictSet (d : VidDict) (vid obj : Nat) : VidDict :=
  if dictHas d vid then d.map (fun p => if p.1 == vid then (p.1, obj) else p)
  else d ++ [(vid, obj)]

/-- Lookup of a command-type key in the _ids table. -/
def idsGet (m : IdsMap) (k : Option String) : Option VidDict :=
  (m.find? (fun p => p.1 == k)).map (·.2)

/-- Models dict.setdefault of the _ids table with an empty dict default. -/
def idsSetdefault (m : IdsMap) (k : Option String) : IdsMap :=
  if (idsGet m k).isSome then m else m ++ [(k, [])]

/-- Assignment into the dict stored under a command-type key. -/
def idsSet (m : IdsMap) (k : Option String) (vid obj : Nat) : IdsMap :=
  m.map (fun p => if p.1 == k then (p.1, dictSet p.2 vid obj) else p)

/-- Python truthiness of the cmd_type2 argument: None and the empty string
are falsy. -/
def cmdTruthy : Option String → Bool
  | none => false
  | some s => s != ""

/-- Models the id-registration block of Vantage.register_id.  The local
variable ids is rebound by the second setdefault, so the duplicate check
consults the dict of cmd_type2, exactly as the source does. -/
def registerIdIds (m : IdsMap) (cmdType : String) (cmdType2 : Option String)
    (obj vid : Nat) : Except String IdsMap :=
  let m1 := idsSetdefault m (some cmdType)
  let m2 := idsSetdefault m1 cmdType2
  let ids := (idsGet m2 cmdType2).getD []
  if dictHas ids vid then Except.error "VIDExistsError"
  else
    let m3 := idsSet m2 (some cmdType) vid obj
    let m4 := if cmdTruthy cmdType2 then idsSet m3 cmdType2 vid obj else m3
    Except.ok m4

/-!
Variable write validation: Vantage.set_variable_vid of pyvantage/__init__.py.
-/

/-- Models the anchored match of the pattern of one-or-more digits followed by
end of string: Python re.match with a dollar anchor also accepts a single
trailing newline. -/
def pyFullmatchNum (s : String) : Bool :=
  (s.length != 0 && s.data.all Char.isDigit) ||
  (s.data.getLastD ' ' == '\n' && s.data.dropLast.length != 0 &&
    s.data.dropLast.all Char.isDigit)

/-- Models re.match of the character class quote, newline, carriage return:
re.match anchors at the start, so only the first character is examined. -/
def pyMatchBadStart (s : String) : Bool :=
  match s.data with
  | [] => false
  | c :: _ => c == '"' || c == '\n' || c == '\r'

/-- Commands written by the Vantage object, in order. -/
structure SendLog where
  sent : List String
  deriving DecidableEq

/-- Models Vantage.set_variable_vid for a string value: numeric-looking values
are sent bare; otherwise values whose first character is a quote, newline or
carriage return raise; all other values are sent wrapped in double quotes,
unescaped. -/
def setVariableVid (st : SendLog) (vid : Nat) (value : String) :
    Except String SendLog :=
  if pyFullmatchNum value then
    Except.ok ⟨st.sent ++ ["VARIABLE " ++ toString vid ++ " " ++ value]⟩
  else if pyMatchBadStart value then
    Except.error "Newlines and quotes are not allowed in Text values"
  else
    Except.ok ⟨st.sent ++ ["VARIABLE " ++ toString vid ++ " \"" ++ value ++ "\""]⟩

/-!
Variable entity: classes PollingSensor and Variable of pyvantage/__init__.py.
-/

/-- A stored variable value: Python assigns a str, bool or float depending on
the subtype. -/
inductive VarVal where
  | str (v : String)
  | bool (v : Bool)
  | num (v : ℚ)
  deriving DecidableEq

/-- State of one Variable entity: its vid, its kind string
(variable_ followed by the subtype), its cached value and the commands it
sent. -/
structure VarState where
  vid : Nat
  kind : String
  value : Option VarVal
  sent : List String
  deriving DecidableEq

/-- Models the Variable.value setter for string-valued variables: the raw
value is stored, a text-subtype value is wrapped in quotes with every inner
quote doubled, a bool-subtype value is collapsed to 1 or 0 by truthiness, and
the VARIABLE command is sent. -/
def variableSetValue (st : VarState) (v : String) : VarState :=
  let wire :=
    if st.kind = "variable_text" then "\"" ++ String.mk (doubleQuotes v.data) ++ "\""
    else if st.kind = "variable_bool" then (if v ≠ "" then "1" else "0")
    else v
  { st with
    value := some (VarVal.str v)
    sent := st.sent ++ ["VARIABLE " ++ toString st.vid ++ " " ++ wire] }

/-- Models PollingSensor.handle_update: a text variable strips the outer
quotes of the first argument and undoubles inner quotes, a bool variable
compares with the string 1, anything else parses a float, and a failed float
parse falls back to storing the raw first argument; an empty argument list is
logged and ignored. -/
def varHandleUpdate (st : VarState) (args : List String) : VarState :=
  match args with
  | [] => st
  | a :: _ =>
    let v :=
      if st.kind = "variable_text" then
        VarVal.str (String.mk (undoubleQuotes (pySlice1m1 a).data))
      else if st.kind = "variable_bool" then VarVal.bool (a = "1")
      else
        match pyFloat a with
        | some q => VarVal.num q
        | none => VarVal.str a
    { st with value := some v }

/-- The wire form of a text value: outer quotes with inner quotes doubled,
as produced by the Variable.value setter. -/
def textWireForm (v : String) : String :=
  "\"" ++ String.mk (doubleQuotes v.data) ++ "\""

/-!
DMX classification: VantageXmlDbParser._parse_output of
pyvantage/__init__.py, lines 839 to 879, restricted to the fields the
classification decides.  An XML channel element is Option (Option String):
the element may be absent, and a present element may have no text.
-/

/-- Models the test ch.text and ch.text.strip() different from the empty
string, applied to the text of a present element. -/
def chNonblank (t : Option String) : Bool :=
  match t with
  | some s => pyStrip s.data != []
  | none => false

/-- Result of the channel classification: the final load-type string and the
dmx_color flag. -/
structure RGBClass where
  loadType : String
  dmxColor : Bool
  deriving DecidableEq

/-- Models the channel block of _parse_output: for an RGB-prefixed load type
all three channel elements are accessed, so a missing element raises
AttributeError; RGBW is always full color; plain RGB is full color exactly
when Channel2 has non-blank text, and is otherwise reclassified to the
dynamic-white type DW. -/
def classifyRGBLoad (loadType : String) (ch1 ch2 ch3 : Option (Option String)) :
    Except String RGBClass :=
  if strStarts loadType "RGB" then
    match ch1, ch2, ch3 with
    | some _, some t2, some _ =>
      if loadType = "RGBW" then Except.ok ⟨loadType, true⟩
      else if chNonblank t2 then Except.ok ⟨loadType, true⟩
      else Except.ok ⟨"DW", false⟩
    | _, _, _ => Except.error "AttributeError"
  else Except.ok ⟨loadType, false⟩

/-- The color-capability fields of a parsed Output, as far as the claim needs
them: the load-type string, the dmx flag and the optional color-control vid. -/
structure ParsedColor where
  loadType : String
  dmxColor : Bool
  colorControlVid : Option Nat
  deriving DecidableEq

/-- Models the surrounding try block of _parse_output for the channel logic:
an exception is caught by the enclosing handler and the load is dropped, so
the result is an Option. -/
def parseOutputColor (loadType : String) (ch1 ch2 ch3 : Option (Option String))
    (ccVid : Option Nat) : Option ParsedColor :=
  match classifyRGBLoad loadType ch1 ch2 ch3 with
  | Except.error _ => none
  | Except.ok r => some ⟨r.loadType, r.dmxColor, ccVid⟩

/-- Models the Output.support_color property: true iff the load is dmx. -/
def ParsedColor.supportColor (p : ParsedColor) : Bool :=
  p.dmxColor

/-- Models the Output.support_color_temp property. -/
def ParsedColor.supportColorTemp (p : ParsedColor) : Bool :=
  p.colorControlVid.isSome || p.loadType == "DW" || strStarts p.loadType "RGB"

/-!
Composite shade assembly: VantageXmlDbParser._parse_3_shade and the loop of
VantageXmlDbParser.parse that consumes its result (lines 551 to 558).
-/

/-- The parts of a load or dry-contact XML element the shade assembly reads:
its vid, its optional Area child value, and its Name text. -/
structure LoadElem where
  vid : Nat
  area : Option Nat
  name : String
  deriving DecidableEq

/-- Models VantageXmlDbParser._object_area_vid: a missing element or a missing
Area child falls back to the vid of the last parsed area. -/
def objectAreaVid (lastArea : Nat) (e : Option LoadElem) : Nat :=
  match e with
  | none => lastArea
  | some el =>
    match el.area with
    | none => lastArea
    | some a => a

/-- A parsed composite shade: name, area and the four constituent vids in the
order is-open, open, close, stop. -/
structure Shade3Rec where
  name : String
  area : Nat
  vids : List (Option Nat)
  deriving DecidableEq

/-- Models VantageXmlDbParser._parse_3_shade: collect the four vids, derive
the shade name by stripping the last five characters of the stripped open
name, and reject the composite with a warning (returning None) when the open
area differs from the close area, or from the area of a present is-open
contact or stop load.  Element truthiness is modelled as presence. -/
def parse3Shade (lastArea : Nat) (isopenX : Option LoadElem)
    (openX closeX : LoadElem) (stopX : Option LoadElem) : Option Shade3Rec :=
  let vids := [isopenX.map (·.vid), some openX.vid, some closeX.vid,
               stopX.map (·.vid)]
  let shadeName := String.mk ((pyStrip openX.name.data).dropLast.dropLast.dropLast.dropLast.dropLast)
  let areaVid := objectAreaVid lastArea (some openX)
  let closeAreaVid := objectAreaVid lastArea (some closeX)
  let isopenAreaVid := objectAreaVid lastArea isopenX
  let stopAreaVid := objectAreaVid lastArea stopX
  if areaVid ≠ closeAreaVid ∨
     (isopenX.isSome ∧ areaVid ≠ isopenAreaVid) ∨
     (stopX.isSome ∧ areaVid ≠ stopAreaVid) then
    none
  else
    some ⟨shadeName, areaVid, vids⟩

/-- Models the shade branch of VantageXmlDbParser.parse, lines 551 to 558:
the result of _parse_3_shade is dereferenced unconditionally to build the
skip set, so a rejected composite raises AttributeError on None instead of
being skipped. -/
def parseShadeStep (lastArea : Nat) (isopenX : Option LoadElem)
    (openX closeX : LoadElem) (stopX : Option LoadElem) :
    Except String (Shade3Rec × List Nat) :=
  match parse3Shade lastArea isopenX openX closeX stopX with
  | none => Except.error "AttributeError: NoneType object has no attribute vids"
  | some sh => Except.ok (sh, sh.vids.filterMap id)

/-!
Composite shade entity: class Shade3 of pyvantage/__init__.py.
-/

/-- State of one Shade3 entity together with its waiter events and the
commands it sent. -/
structure S3State where
  level : Option ℚ
  isOpen : Option Bool
  isopenVid : Option Nat
  openVid : Nat
  closeVid : Nat
  stopVid : Option Nat
  waiters : List Nat
  eventsSet : List Nat
  nextEv : Nat
  sent : List String
  deriving DecidableEq

/-- Python truthiness test used on the optional is-open vid: absent or zero
is falsy. -/
def notTruthyN : Option Nat → Bool
  | none => true
  | some n => n == 0

/-- Models the request call on the query waiter of a Shade3: allocate an
event, append it, and perform the action only when this waiter was first. -/
def s3Request (st : S3State) (act : S3State → S3State) : S3State :=
  let first := st.waiters.isEmpty
  let st2 := { st with waiters := st.waiters ++ [st.nextEv], nextEv := st.nextEv + 1 }
  if first then act st2 else st2

/-- Models Shade3._do_start_open: pulse the open relay to 100. -/
def s3StartOpen (st : S3State) : S3State :=
  { st with sent := st.sent ++ ["LOAD " ++ toString st.openVid ++ " 100"] }

/-- Models Shade3._do_start_close: pulse the close relay to 100. -/
def s3StartClose (st : S3State) : S3State :=
  { st with sent := st.sent ++ ["LOAD " ++ toString st.closeVid ++ " 100"] }

/-- Models Shade3.open: request the start-open action, wait briefly, drop the
open relay back to 0, and set the cached open flag optimistically when no
is-open contact exists. -/
def s3Open (st : S3State) : S3State :=
  let st2 := s3Request st s3StartOpen
  let st3 := { st2 with sent := st2.sent ++ ["LOAD " ++ toString st2.openVid ++ " 0"] }
  if notTruthyN st3.isopenVid then { st3 with isOpen := some true } else st3

/-- Models Shade3.close: request the start-close action, wait briefly, drop
the close relay back to 0, and clear the cached open flag optimistically when
no is-open contact exists. -/
def s3Close (st : S3State) : S3State :=
  let st2 := s3Request st s3StartClose
  let st3 := { st2 with sent := st2.sent ++ ["LOAD " ++ toString st2.closeVid ++ " 0"] }
  if notTruthyN st3.isopenVid then { st3 with isOpen := some false } else st3

/-- Models the Shade3.level setter: zero closes and caches level 0, one
hundred opens and caches level 100, and every other value does nothing. -/
def s3SetLevel (st : S3State) (newLevel : ℚ) : S3State :=
  if newLevel = 0 then { s3Close st with level := some 0 }
  else if newLevel = 100 then { s3Open st with level := some 100 }
  else st

/-!
Dispatcher and output entities: Vantage._recv, Vantage.handle_update_and_notify,
Output and LoadGroup of pyvantage/__init__.py.  The state gathers the LOAD
routing table (which for these claims holds Output and LoadGroup entities,
registered under their own vid, so the table doubles as _vid_to_load), the two
group back-maps, the subscriber set, the event store of the query waiters, and
the command log.
-/

/-- Fields of one Output (or LoadGroup, flagged by isGroup) entity read or
written by the modelled operations.  The vid of the entity is the key under
which it is stored.  Ramp durations are modelled as integers; only their
rendered text in outgoing commands depends on that choice. -/
structure Output where
  outputType : String
  loadType : String
  isDimmable : Bool
  level : ℚ
  rgb : ℚ × ℚ × ℚ
  colorTemp : ℚ
  colorControlVid : Option Nat
  dmxColor : Bool
  rgbIsDirty : Bool
  addedStatus : Bool
  waiters : List Nat
  rampUp : Int
  rampDown : Int
  isGroup : Bool
  loadVids : List Nat
  colorVids : List Nat
  brightnessVid : Option Nat
  deriving DecidableEq

/-- State of the Vantage object as the modelled operations see it. -/
structure VState where
  outputs : List (Nat × Output)
  brightToGroup : List (Nat × Nat)
  colorToGroup : List (Nat × Nat)
  subscribers : List Nat
  notified : List Nat
  eventsSet : List Nat
  nextEv : Nat
  sent : List String
  cmds : List String
  deriving DecidableEq

/-- Lookup of an output by vid (dict get on the routing table). -/
def oget (m : List (Nat × Output)) (k : Nat) : Option Output :=
  (m.find? (fun p => p.1 == k)).map (·.2)

/-- Pointwise update of the output stored under a vid. -/
def oset (m : List (Nat × Output)) (k : Nat) (f : Output → Output) :
    List (Nat × Output) :=
  m.map (fun p => if p.1 == k then (p.1, f p.2) else p)

/-- Lookup in a vid-to-vid table (the group back-maps). -/
def lookupNat (m : List (Nat × Nat)) (k : Nat) : Option Nat :=
  (m.find? (fun p => p.1 == k)).map (·.2)

/-- Update of the output stored under a vid inside the whole state. -/
def setOut (s : VState) (v : Nat) (f : Output → Output) : VState :=
  { s with outputs := oset s.outputs v f }

/-- Models Vantage.send_cmd: remember the command on the response FIFO and
write it through the connection pool. -/
def vsend (s : VState) (cmd : String) : VState :=
  { s with cmds := s.cmds ++ [cmd], sent := s.sent ++ [cmd] }

/-- Models a notify call on the query waiter of the output stored under a
vid: every pending event becomes set and the waiter list empties. -/
def notifyWaiters (s : VState) (v : Nat) : VState :=
  match oget s.outputs v with
  | none => s
  | some o =>
    { s with
      outputs := oset s.outputs v (fun x => { x with waiters := [] })
      eventsSet := s.eventsSet ++ o.waiters }

/-- Models level_to_kelvin of pyvantage/__init__.py. -/
def levelToKelvin (level : ℚ) : ℚ :=
  if level < 0 then 2200
  else if 100 < level then 6000
  else (6000 - 2200) * level / 100 + 2200

/-- Models Output._invoke_rgb: send the scaled RGBW invoke, follow with a
ramp on a dmx load that is on, and clear the dirty flag once the level is
positive. -/
def invokeRgbOutput (s : VState) (v : Nat) : VState :=
  match oget s.outputs v with
  | none => s
  | some o =>
    let sc := o.level / 100
    let s1 := vsend s ("INVOKE " ++ toString v ++ " RGBLoad.SetRGBW " ++
      toString (pyRound (o.rgb.1 * sc)) ++ " " ++
      toString (pyRound (o.rgb.2.1 * sc)) ++ " " ++
      toString (pyRound (o.rgb.2.2 * sc)) ++ " 0")
    let s2 := if o.dmxColor ∧ 0 < o.level then
        vsend s1 ("RAMPLOAD " ++ toString v ++ " " ++ toString (pyRound o.level) ++ " 0.1")
      else s1
    if 0 < o.level then setOut s2 v (fun x => { x with rgbIsDirty := false }) else s2

/-- One member step of the color fan-out of LoadGroup._invoke_rgb: send the
truncated RGBW invoke and a ramp to a member load that is dmx or dynamic
white, skip a missing or color-incapable member. -/
def rgbFanStep (o : Output) (acc : VState) (lv : Nat) : VState :=
  match oget acc.outputs lv with
  | some l =>
    if l.dmxColor ∨ l.loadType = "DW" then
      let sc := o.level / 100
      let acc1 := vsend acc ("INVOKE " ++ toString lv ++ " RGBLoad.SetRGBW " ++
        toString (pyTrunc (o.rgb.1 * sc)) ++ " " ++
        toString (pyTrunc (o.rgb.2.1 * sc)) ++ " " ++
        toString (pyTrunc (o.rgb.2.2 * sc)) ++ " 0")
      vsend acc1 ("RAMPLOAD " ++ toString lv ++ " " ++ toString (pyRound o.level) ++ " 0.1")
    else acc
  | none => acc

/-- Models LoadGroup._invoke_rgb: fan the truncated RGBW invoke and a ramp
out to every member load that is dmx or dynamic white, then clear the dirty
flag once the level is positive. -/
def invokeRgbGroup (s : VState) (v : Nat) : VState :=
  match oget s.outputs v with
  | none => s
  | some o =>
    let s1 := o.loadVids.foldl (rgbFanStep o) s
    if 0 < o.level then setOut s1 v (fun x => { x with rgbIsDirty := false }) else s1

/-- Dynamic dispatch of _invoke_rgb on the class of the entity. -/
def invokeRgb (s : VState) (v : Nat) : VState :=
  match oget s.outputs v with
  | none => s
  | some o => if o.isGroup then invokeRgbGroup s v else invokeRgbOutput s v

/-- Models Output._set_level: return early when the level is unchanged,
otherwise cache the new level, flush a dirty color, and send a ramp command
on a dimmable load or a plain load command otherwise. -/
def setLevelOutputCore (s : VState) (v : Nat) (L : ℚ) : VState :=
  match oget s.outputs v with
  | none => s
  | some o =>
    if o.level = L then s
    else
      let s1 := setOut s v (fun x => { x with level := L })
      let s2 := if o.rgbIsDirty then invokeRgb s1 v else s1
      if o.isDimmable then
        let ramp := if L = 0 then o.rampDown else o.rampUp
        vsend s2 ("RAMPLOAD " ++ toString v ++ " " ++ toString (pyRound L) ++ " " ++ toString ramp)
      else
        vsend s2 ("LOAD " ++ toString v ++ " " ++ toString (pyRound L))

/-- Recursion-limit fuel for the level-setter dispatch, standing in for the
Python recursion limit on mutually referencing load groups. -/
def setLevelFuel : Nat := 1000

/-- Dispatch of the level setter on the class of the entity: a LoadGroup
first forwards to its brightness member if it has a truthy one (raising when
the member is absent from the load table), then runs the inherited setter on
itself; a plain Output runs the setter directly. -/
def setLevelD : Nat → VState → Nat → ℚ → Except String VState
  | 0, _, _, _ => Except.error "RecursionError"
  | fuel + 1, s, v, L =>
    match oget s.outputs v with
    | none => Except.ok s
    | some o =>
      if o.isGroup then
        match o.brightnessVid with
        | some m =>
          if m ≠ 0 then
            match oget s.outputs m with
            | none => Except.error "AttributeError"
            | some _ =>
              match setLevelD fuel s m L with
              | Except.error e => Except.error e
              | Except.ok s1 => Except.ok (setLevelOutputCore s1 v L)
          else Except.ok (setLevelOutputCore s v L)
        | none => Except.ok (setLevelOutputCore s v L)
      else Except.ok (setLevelOutputCore s v L)

/-- Models the private query helper of Output reached from Output._get_level:
enable extended status once for a color-capable load, then ask for the load
level. -/
def doQueryLevel (s : VState) (v : Nat) : VState :=
  match oget s.outputs v with
  | none => s
  | some o =>
    let s1 := if o.dmxColor ∧ !o.addedStatus then
        let s0 := vsend s ("ADDSTATUS " ++ toString v ++ " ")
        setOut s0 v (fun x => { x with addedStatus := true })
      else s
    vsend s1 ("GETLOAD " ++ toString v ++ " ")

/-- Models Output._get_level: register a waiter (the first waiter issues the
query), wait briefly, and return the cached level. -/
def getLevelOutput (s : VState) (v : Nat) : Except String (VState × ℚ) :=
  match oget s.outputs v with
  | none => Except.error "AttributeError"
  | some o =>
    let fresh := s.nextEv
    let first := o.waiters.isEmpty
    let s1 := { s with
      nextEv := fresh + 1
      outputs := oset s.outputs v (fun x => { x with waiters := x.waiters ++ [fresh] }) }
    let s2 := if first then doQueryLevel s1 v else s1
    match oget s2.outputs v with
    | none => Except.error "AttributeError"
    | some o2 => Except.ok (s2, o2.level)

/-- Models LoadGroup._get_level: with a truthy brightness member, read the
level of that member; otherwise run the inherited getter on the group
itself (which, through Python name mangling, uses the query helper of
Output). -/
def getLevelGroup (s : VState) (g : Nat) : Except String (VState × ℚ) :=
  match oget s.outputs g with
  | none => Except.error "AttributeError"
  | some grec =>
    match grec.brightnessVid with
    | some m => if m ≠ 0 then getLevelOutput s m else getLevelOutput s g
    | none => getLevelOutput s g

/-- Models the brightness-member selection of LoadGroup init: defined only
for a group of exactly two member loads of which exactly one supports color,
and then the non-color member. -/
def loadGroupBrightnessVid (loadVids colorVids : List Nat) : Option Nat :=
  if loadVids.length = 2 ∧ colorVids.length = 1 then
    if loadVids.headD 0 = colorVids.headD 0 then some (loadVids.getD 1 0)
    else some (loadVids.headD 0)
  else none

/-- Assignment into a component of the cached RGB triple by a Python list
index, including negative wrap-around; an index out of range raises. -/
def setRgbComp (t : ℚ × ℚ × ℚ) (i : Int) (v : ℚ) : Except String (ℚ × ℚ × ℚ) :=
  if i = 0 ∨ i = -3 then Except.ok (v, t.2.1, t.2.2)
  else if i = 1 ∨ i = -2 then Except.ok (t.1, v, t.2.2)
  else if i = 2 ∨ i = -1 then Except.ok (t.1, t.2.1, v)
  else Except.error "IndexError"

/-- Models Output.handle_update.  A single argument is a level: a COLOR
output forwards it as a color temperature to its paired load and wakes that
load, every other output caches the level, flushes a dirty color when the
light is on, wakes its own waiters, and forwards the level to a load group
that delegates brightness to it.  Several arguments starting with
RGBLoad.GetRGB update one RGB component of the output and of a group that
watches this color vid.  The second component of the result is the vid of
the entity the handler returned. -/
def handleUpdateOutput (s : VState) (v : Nat) (args : List String) :
    Except String (VState × Option Nat) :=
  match oget s.outputs v with
  | none => Except.error "AttributeError"
  | some o =>
    match args with
    | [a] =>
      match pyFloat a with
      | none => Except.error "ValueError"
      | some level =>
        if o.outputType = "COLOR" then
          match o.colorControlVid with
          | some cc =>
            match oget s.outputs cc with
            | some _ =>
              let s1 := setOut s cc (fun l => { l with colorTemp := levelToKelvin level })
              let s2 := notifyWaiters s1 cc
              Except.ok (s2, some cc)
            | none => Except.ok (s, none)
          | none => Except.ok (s, none)
        else
          let s1 := setOut s v (fun x => { x with level := level })
          let s2 := if 0 < level ∧ o.rgbIsDirty then invokeRgb s1 v else s1
          let s3 := notifyWaiters s2 v
          match lookupNat s3.brightToGroup v with
          | some bvid =>
            if bvid ≠ 0 then
              match oget s3.outputs bvid with
              | none => Except.error "KeyError"
              | some _ =>
                match setLevelD setLevelFuel s3 bvid level with
                | Except.error e => Except.error e
                | Except.ok s4 => Except.ok (notifyWaiters s4 bvid, some v)
            else Except.ok (s3, some v)
          | none => Except.ok (s3, some v)
    | [] => Except.error "IndexError"
    | a0 :: a1 :: rest =>
      if a0 = "RGBLoad.GetRGB" then
        match pyIntStr a1 with
        | none => Except.error "ValueError"
        | some valI =>
          match rest.head? with
          | none => Except.error "IndexError"
          | some a2 =>
            match pyIntStr a2 with
            | none => Except.error "ValueError"
            | some ch =>
              match (if ch < 3 then
                  (setRgbComp o.rgb ch (valI : ℚ)).map
                    (fun t => setOut s v (fun x => { x with rgb := t }))
                else Except.ok s) with
              | Except.error e => Except.error e
              | Except.ok s1 =>
                let s2 := if ch = 2 then notifyWaiters s1 v else s1
                match lookupNat s2.colorToGroup v with
                | some gvid =>
                  if gvid ≠ 0 then
                    match oget s2.outputs gvid with
                    | none => Except.error "KeyError"
                    | some grec =>
                      match (if ch < 3 then
                          (setRgbComp grec.rgb ch (valI : ℚ)).map
                            (fun t => setOut s2 gvid (fun x => { x with rgb := t }))
                        else Except.ok s2) with
                      | Except.error e => Except.error e
                      | Except.ok s3 =>
                        let s4 := if ch = 2 then notifyWaiters s3 gvid else s3
                        Except.ok (s4, some v)
                  else Except.ok (s2, some v)
                | none => Except.ok (s2, some v)
      else Except.ok (s, some v)

/-- Models Vantage.handle_update_and_notify: run the update handler, then
invoke the subscriber callback of the handled entity if one is registered. -/
def handleUpdateAndNotify (s : VState) (vid : Nat) (args : List String) :
    Except String VState :=
  match handleUpdateOutput s vid args with
  | Except.error e => Except.error e
  | Except.ok (s2, handled) =>
    match handled with
    | some h =>
      Except.ok (if h ∈ s2.subscribers then { s2 with notified := s2.notified ++ [h] } else s2)
    | none => Except.ok s2

/-- The response command allow-list _r_cmds. -/
def rCmdsList : List String :=
  ["LOGIN", "LOAD", "STATUS", "GETLOAD", "GETVARIABLE", "ERROR",
   "TASK", "GETBLIND", "BLIND", "INVOKE", "VARIABLE",
   "GETLIGHT", "GETPOWER", "GETCURRENT",
   "GETSENSOR", "ADDSTATUS", "DELSTATUS",
   "GETCUSTOM", "RAMPLOAD"]

/-- The status command allow-list _s_cmds. -/
def sCmdsList : List String :=
  ["LOAD", "TASK", "BTN", "VARIABLE", "BLIND", "STATUS"]

/-- Models the routing tail of Vantage._recv.  The modelled routing table
registers Output and LoadGroup entities under LOAD; for any other command
type the table lookup comes back empty and the line is logged and dropped.
A non-numeric or unknown device id is dropped; a routable line reaches the
update handler when it is a status line or a response of one of the
value-bearing types. -/
def route (s : VState) (isR : Bool) (cmdType : String) (vidTok : String)
    (args : List String) : Except String VState :=
  if cmdType ≠ "LOAD" then Except.ok s
  else if !pyIsdigit vidTok then Except.ok s
  else
    let vid := digitsToNat vidTok.data
    match oget s.outputs vid with
      | none => Except.ok s
      | some _ =>
        if isR = false ∨
           cmdType ∈ ["LOAD", "POWER", "CURRENT", "VARIABLE", "SENSOR", "LIGHT", "BLIND"] then
          handleUpdateAndNotify s vid args
        else Except.ok s

/-- Models the classification chain of Vantage._recv after the leading
marker: split the remainder on spaces and colons, drop short lines, filter
against the allow-list, discard acknowledged types, normalize GET-prefixed
response types, and route the rest. -/
def recvRest (s : VState) (isR : Bool) (allow : List String) (rest : List Char) :
    Except String VState :=
  match (pySplitL rest).map String.mk with
  | cmdType0 :: vidTok :: argParts =>
    if cmdType0 ∉ allow then Except.ok s
    else if cmdType0 = "LOGIN" then Except.ok s
    else if isR ∧ cmdType0 ∈ ["STATUS", "ADDSTATUS", "DELSTATUS", "INVOKE", "GETCUSTOM", "RAMPLOAD"] then
      Except.ok s
    else if isR ∧ cmdType0 = "ERROR" then Except.ok s
    else if cmdType0 = "ERROR" then Except.ok s
    else if cmdType0 ∈ ["GETLOAD", "GETPOWER", "GETCURRENT", "GETVARIABLE", "GETSENSOR", "GETLIGHT", "GETBLIND"] then
      route s isR (cmdType0.drop 3) vidTok argParts
    else if cmdType0 = "TASK" then Except.ok s
    else route s isR cmdType0 vidTok argParts
  | _ => Except.ok s

/-- Models Vantage._recv: an empty line is ignored, a response line pops the
oldest pending command for diagnostics and is filtered against the response
allow-list, a status line is filtered against the status allow-list, and any
other leading character is logged and dropped. -/
def recv (s : VState) (line : String) : Except String VState :=
  if line.data = [] then Except.ok s
  else if line.data.headD ' ' = 'R' then
    recvRest { s with cmds := s.cmds.tail } true rCmdsList (line.data.drop 2)
  else if line.data.headD ' ' = 'S' then
    recvRest s false sCmdsList (line.data.drop 2)
  else Except.ok s

/-- The cached level of the output stored under a vid. -/
def levelAt (s : VState) (n : Nat) : Option ℚ :=
  (oget s.outputs n).map (fun o => o.level)

/-- The pending waiter events of the output stored under a vid. -/
def waitersAt (s : VState) (n : Nat) : Option (List Nat) :=
  (oget s.outputs n).map (fun o => o.waiters)

/-- The class flag and brightness member of the output stored under a vid. -/
def gAt (s : VState) (n : Nat) : Option (Bool × Option Nat) :=
  (oget s.outputs n).map (fun o => (o.isGroup, o.brightnessVid))

/-- Consistency of the brightness back-map at one member vid, as the parser
establishes it: when the member maps to a truthy group vid, the member is a
plain load, its vid is truthy, and the group is a registered LoadGroup whose
brightness member is exactly this vid. -/
def brightConsistent (s : VState) (n : Nat) (out : Output) : Prop :=
  ∀ g, lookupNat s.brightToGroup n = some g → g ≠ 0 →
    out.isGroup = false ∧ n ≠ 0 ∧
      ∃ grec, oget s.outputs g = some grec ∧
        grec.isGroup = true ∧ grec.brightnessVid = some n

/-!
Concrete instances used by the closed theorems below: a plain dimmable
output, a COLOR output with no paired load, and small Vantage states holding
them.
-/

/-- A plain dimmable light with two pending level waiters. -/
def exOutPlain : Output :=
  { outputType := "LIGHT", loadType := "Incandescent", isDimmable := true,
    level := 0, rgb := (0, 0, 0), colorTemp := 2700, colorControlVid := none,
    dmxColor := false, rgbIsDirty := false, addedStatus := false,
    waiters := [3, 4], rampUp := 0, rampDown := 0, isGroup := false,
    loadVids := [], colorVids := [], brightnessVid := none }

/-- A COLOR-control output whose paired load is absent, with one pending
waiter. -/
def exOutColor : Output :=
  { exOutPlain with outputType := "COLOR", loadType := "HID", waiters := [1] }

/-- A state holding only the plain output, registered under vid 7. -/
def exStatePlain : VState :=
  { outputs := [(7, exOutPlain)], brightToGroup := [], colorToGroup := [],
    subscribers := [], notified := [], eventsSet := [], nextEv := 10,
    sent := [], cmds := [] }

/-- A state holding only the COLOR output, registered under vid 10. -/
def exStateColor : VState :=
  { exStatePlain with outputs := [(10, exOutColor)] }

/-- A dimmer-only member load at level 5. -/
def exMemberDim : Output :=
  { exOutPlain with level := 5, waiters := [] }

/-- A color-only member load. -/
def exMemberColor : Output :=
  { exOutPlain with dmxColor := true, loadType := "RGB", level := 9, waiters := [] }

/-- A load group of the two members with the dimmer as brightness member. -/
def exGroup : Output :=
  { exOutPlain with
    isGroup := true, outputType := "GROUP", loadType := "GROUP",
    loadVids := [1, 2], colorVids := [2],
    brightnessVid := loadGroupBrightnessVid [1, 2] [2], waiters := [] }

/-- A state holding the two members and the group. -/
def exStateGroup : VState :=
  { exStatePlain with outputs := [(1, exMemberDim), (2, exMemberColor), (3, exGroup)] }

/-- A composite shade with no is-open contact and no stop relay. -/
def exShade3 : S3State :=
  { level := none, isOpen := none, isopenVid := none, openVid := 101,
    closeVid := 102, stopVid := none, waiters := [], eventsSet := [],
    nextEv := 0, sent := [] }

/-!
Supporting lemmas: string and list computations shared by the claim proofs.
-/

theorem strDataAppend (a b : String) : (a ++ b).data = a.data ++ b.data := by
  cases a
  cases b
  rfl

theorem strMkData (s : String) : String.mk s.data = s := rfl

theorem dropLast_append_single {α : Type} (l : List α) (a : α) :
    (l ++ [a]).dropLast = l := by
  induction l with
  | nil => rfl
  | cons x t ih =>
    cases t with
    | nil => rfl
    | cons y u => simp [List.dropLast, ih]

theorem undoubleQuotes_cons_ne (c : Char) (rest : List Char) (h : c ≠ '"') :
    undoubleQuotes (c :: rest) = c :: undoubleQuotes rest := by
  cases rest with
  | nil => rfl
  | cons d r => simp [undoubleQuotes, h]

theorem undoubleQuotes_pair (rest : List Char) :
    undoubleQuotes ('"' :: '"' :: rest) = '"' :: undoubleQuotes rest := by
  simp [undoubleQuotes]

theorem undouble_double (l : List Char) : undoubleQuotes (doubleQuotes l) = l := by
  induction l with
  | nil => rfl
  | cons c t ih =>
    by_cases h : c = '"'
    · subst h
      simp [doubleQuotes, undoubleQuotes_pair, ih]
    · simp [doubleQuotes, h, undoubleQuotes_cons_ne c _ h, ih]

theorem pySplitL_append_sep (xs ys : List Char)
    (hx : xs.all (fun c => !(isSep c)) = true) :
    pySplitL (xs ++ ' ' :: ys) = xs :: pySplitL ys := by
  induction xs with
  | nil => simp [pySplitL, isSep]
  | cons a t ih =>
    have hx2 : isSep a = false ∧ (t.all fun c => !(isSep c)) = true := by
      simpa [List.all_cons] using hx
    have hstep : pySplitL (a :: (t ++ ' ' :: ys))
        = match pySplitL (t ++ ' ' :: ys) with
          | [] => [[a]]
          | seg :: segs => (a :: seg) :: segs := by
      simp [pySplitL, hx2.1]
    rw [List.cons_append, hstep, ih hx2.2]

theorem pySplitL_sepFree (xs : List Char)
    (hx : xs.all (fun c => !(isSep c)) = true) :
    pySplitL xs = [xs] := by
  induction xs with
  | nil => rfl
  | cons a t ih =>
    have hx2 : isSep a = false ∧ (t.all fun c => !(isSep c)) = true := by
      simpa [List.all_cons] using hx
    have hstep : pySplitL (a :: t)
        = match pySplitL t with
          | [] => [[a]]
          | seg :: segs => (a :: seg) :: segs := by
      simp [pySplitL, hx2.1]
    rw [hstep, ih hx2.2]

theorem sendAsciiNl_num (st : TState) (cmd : String) :
    (sendAsciiNl st cmd).num = st.num := by
  unfold sendAsciiNl
  split <;> rfl

theorem sendAll_num (st : TState) (lines : List String) :
    (sendAll st lines).num = st.num := by
  induction lines generalizing st with
  | nil => rfl
  | cons l t ih =>
    show (sendAll (sendAsciiNl st l) t).num = st.num
    rw [ih, sendAsciiNl_num]

theorem sendAll_take_succ (st : TState) (lines : List String) (k : Nat)
    (h : k < lines.length) :
    sendAll st (lines.take (k + 1)) = sendAsciiNl (sendAll st (lines.take k)) lines[k] := by
  have h1 : lines.take (k + 1) = lines.take k ++ [lines[k]] := by
    rw [List.take_succ, List.getElem?_eq_getElem h]
    rfl
  show (lines.take (k + 1)).foldl sendAsciiNl st
      = sendAsciiNl ((lines.take k).foldl sendAsciiNl st) lines[k]
  rw [h1, List.foldl_append]
  rfl

/-- C1: registering a second entity under the same command-type with the same
vid is claimed to raise VIDExistsError.  The code checks the dict of the
second command-type argument instead, which stays empty for the usual calls
that pass None there: the duplicate registration below succeeds and silently
overwrites the first object, while the variant that passes a second
command-type does raise. -/
theorem register_id_duplicate_vid_accepted :
    registerIdIds [] "LOAD" none 1 5 = Except.ok [(some "LOAD", [(5, 1)]), (none, [])]
    ∧ Except.bind (registerIdIds [] "LOAD" none 1 5)
        (fun m => registerIdIds m "LOAD" none 2 5)
      = Except.ok [(some "LOAD", [(5, 2)]), (none, [])]
    ∧ Except.bind (registerIdIds [] "LOAD" (some "STATUS") 1 5)
        (fun m => registerIdIds m "LOAD" (some "STATUS") 2 5)
      = Except.error "VIDExistsError" := by
  refine ⟨?_, ?_, ?_⟩ <;> decide

/-- C3: the request correlator invokes the supplied action exactly when the
waiter set was empty at the time of the call, always appends the new waiter,
and notify empties the waiter set after marking every registered event set. -/
theorem request_helper_first_invokes (σ : Type) (h : ReqHelper) (fresh : Nat)
    (action : σ → σ) (ext : σ) (es : List Nat) :
    (rhRequest h fresh action ext).2.1
      = (if h.events.isEmpty then action ext else ext)
    ∧ (rhRequest h fresh action ext).1.events = h.events ++ [fresh]
    ∧ (rhNotify h es).1.events = []
    ∧ (rhNotify h es).2 = es ++ h.events := by
  exact ⟨rfl, rfl, rfl, rfl⟩

/-- C4: at every position of a sequence of sent lines, the line is written to
the connection selected by the current round-robin cursor; a line starting
with GET leaves the cursor unchanged while any other line advances it by one
modulo the (invariant) number of connections. -/
theorem send_ascii_nl_round_robin (st : TState) (lines : List String) (k : Nat)
    (h : k < lines.length) :
    (sendAll st (lines.take (k + 1))).writes
      = (sendAll st (lines.take k)).writes
        ++ [((sendAll st (lines.take k)).iconn, lines[k])]
    ∧ (sendAll st (lines.take (k + 1))).iconn
      = (if strStarts lines[k] "GET" then (sendAll st (lines.take k)).iconn
         else ((sendAll st (lines.take k)).iconn + 1) % st.num)
    ∧ (sendAll st (lines.take k)).num = st.num := by
  rw [sendAll_take_succ st lines k h]
  refine ⟨?_, ?_, sendAll_num st _⟩
  · unfold sendAsciiNl
    split <;> rfl
  · by_cases hg : strStarts lines[k] "GET" = true
    · simp [sendAsciiNl, hg]
    · simp [sendAsciiNl, hg, sendAll_num]

/-- C4 witness: two lines on a two-connection pool, checked at the second
line, a GET query that stays pinned to connection 1. -/
theorem send_ascii_nl_round_robin_witness :
    (sendAll ⟨0, 2, []⟩ (["LOAD 5 100", "GETLOAD 5 "].take (1 + 1))).writes
      = (sendAll ⟨0, 2, []⟩ (["LOAD 5 100", "GETLOAD 5 "].take 1)).writes
        ++ [((sendAll ⟨0, 2, []⟩ (["LOAD 5 100", "GETLOAD 5 "].take 1)).iconn,
             ["LOAD 5 100", "GETLOAD 5 "][1])] :=
  (send_ascii_nl_round_robin ⟨0, 2, []⟩ ["LOAD 5 100", "GETLOAD 5 "] 1 (by decide)).1

/-- C5 counterexample: an RGB load with populated Channel1 and Channel3 but
an absent Channel2 element is claimed to become a dynamic-white Output; the
code instead raises AttributeError on the missing element and the load is
dropped entirely, producing no Output. -/
theorem rgb_channel2_absent_no_output :
    parseOutputColor "RGB" (some (some "50")) none (some (some "51")) none = none
    ∧ chNonblank (some "50") = true
    ∧ chNonblank (some "51") = true := by
  decide

/-- C5 amended: for a load of type exactly RGB whose three channel elements
are all present, non-blank Channel1 and Channel2 classify full color, while a
present but blank Channel2 (with Channel1 and Channel3 populated) reclassifies
the load to dynamic white DW with color-temperature support only. -/
theorem rgb_channel2_classification (t1 t2 t3 : Option String) (cc : Option Nat) :
    (chNonblank t1 = true → chNonblank t2 = true →
      parseOutputColor "RGB" (some t1) (some t2) (some t3) cc = some ⟨"RGB", true, cc⟩
      ∧ ParsedColor.supportColor ⟨"RGB", true, cc⟩ = true)
    ∧ (chNonblank t1 = true → chNonblank t3 = true → chNonblank t2 = false →
      parseOutputColor "RGB" (some t1) (some t2) (some t3) cc = some ⟨"DW", false, cc⟩
      ∧ ParsedColor.supportColor ⟨"DW", false, cc⟩ = false
      ∧ ParsedColor.supportColorTemp ⟨"DW", false, cc⟩ = true) := by
  have hs : strStarts "RGB" "RGB" = true := by decide
  constructor
  · intro _ h2
    refine ⟨?_, rfl⟩
    simp [parseOutputColor, classifyRGBLoad, h2, hs]
  · intro _ _ h2
    refine ⟨?_, rfl, by simp [ParsedColor.supportColorTemp]⟩
    simp [parseOutputColor, classifyRGBLoad, h2, hs]

/-- C5 witness: a populated Channel2 classifies full color and a blank
Channel2 classifies dynamic white, at concrete channel texts. -/
theorem rgb_channel2_classification_witness :
    (parseOutputColor "RGB" (some (some "50")) (some (some "51")) (some (some "52")) none
        = some ⟨"RGB", true, none⟩
      ∧ ParsedColor.supportColor ⟨"RGB", true, none⟩ = true)
    ∧ (parseOutputColor "RGB" (some (some "50")) (some (some " ")) (some (some "52")) none
        = some ⟨"DW", false, none⟩
      ∧ ParsedColor.supportColor ⟨"DW", false, none⟩ = false
      ∧ ParsedColor.supportColorTemp ⟨"DW", false, none⟩ = true) :=
  ⟨(rgb_channel2_classification (some "50") (some "51") (some "52") none).1
      (by decide) (by decide),
   (rgb_channel2_classification (some "50") (some " ") (some "52") none).2
      (by decide) (by decide) (by decide)⟩

/-- C6: setting a text variable to a string sends the VARIABLE command whose
argument is the value wrapped in quotes with every inner quote doubled, and
the update handler decodes that wire form back to exactly the original
string. -/
theorem variable_text_roundtrip (st : VarState) (v : String)
    (hk : st.kind = "variable_text") :
    (variableSetValue st v).sent
      = st.sent ++ ["VARIABLE " ++ toString st.vid ++ " " ++ textWireForm v]
    ∧ (varHandleUpdate st [textWireForm v]).value = some (VarVal.str v) := by
  constructor
  · simp [variableSetValue, hk, textWireForm]
  · simp only [varHandleUpdate, hk, if_pos rfl]
    have hdata : (textWireForm v).data = '"' :: (doubleQuotes v.data ++ ['"']) := by
      show ("\"" ++ String.mk (doubleQuotes v.data) ++ "\"").data = _
      rw [strDataAppend, strDataAppend]
      rfl
    have hslice : (pySlice1m1 (textWireForm v)).data = doubleQuotes v.data := by
      show ((textWireForm v).data.drop 1).dropLast = doubleQuotes v.data
      rw [hdata]
      simp [dropLast_append_single]
    rw [hslice, undouble_double, strMkData]
    simp

/-- C6 witness: the spec scenario, a text variable set to a value holding an
inner quoted word. -/
theorem variable_text_roundtrip_witness :
    (variableSetValue ⟨2721, "variable_text", none, []⟩ "he said \"hi\"").sent
      = [] ++ ["VARIABLE " ++ toString (2721 : Nat) ++ " " ++ textWireForm "he said \"hi\""]
    ∧ (varHandleUpdate ⟨2721, "variable_text", none, []⟩ [textWireForm "he said \"hi\""]).value
      = some (VarVal.str "he said \"hi\"") :=
  variable_text_roundtrip ⟨2721, "variable_text", none, []⟩ "he said \"hi\"" rfl

/-- C7: an open load whose matching close load reports a different area is
claimed to be skipped with only a warning.  The helper indeed returns no
composite, but the parse loop then dereferences that missing result, so the
whole parse aborts with an AttributeError instead of skipping. -/
theorem shade3_area_mismatch_aborts :
    parse3Shade 0 none ⟨101, some 1, "X Open"⟩ ⟨102, some 2, "X Close"⟩ none = none
    ∧ parseShadeStep 0 none ⟨101, some 1, "X Open"⟩ ⟨102, some 2, "X Close"⟩ none
      = Except.error "AttributeError: NoneType object has no attribute vids"
    ∧ parseShadeStep 0 none ⟨101, some 1, "X Open"⟩ ⟨102, some 1, "X Close"⟩ none
      = Except.ok (⟨"X", 1, [none, some 101, some 102, none]⟩, [101, 102]) := by
  decide

/-- C9: a value holding a quote anywhere is claimed to raise and send
nothing.  The anchored regular-expression match only examines the first
character, so a value with an inner quote is accepted and the malformed
quoted command is sent; only a value starting with a quote, newline or
carriage return raises. -/
theorem set_variable_vid_inner_quote_sent :
    setVariableVid ⟨[]⟩ 2721 "he said \"hi\""
      = Except.ok ⟨["VARIABLE 2721 \"he said \"hi\"\""]⟩
    ∧ setVariableVid ⟨[]⟩ 2721 "\"hi\" he said"
      = Except.error "Newlines and quotes are not allowed in Text values"
    ∧ setVariableVid ⟨[]⟩ 2721 "plain text"
      = Except.ok ⟨["VARIABLE 2721 \"plain text\""]⟩ := by
  decide

/-- C10: assigning any level other than 0 and 100 to a Shade3 leaves the
whole state unchanged (no command, same cached level and open flag), while 0
and 100 cache the new level and send the close and open pulse sequences. -/
theorem shade3_level_setter_frame (st : S3State) (L : ℚ)
    (h0 : L ≠ 0) (h100 : L ≠ 100) :
    s3SetLevel st L = st
    ∧ (s3SetLevel st 0).level = some 0
    ∧ (s3SetLevel st 100).level = some 100
    ∧ (s3SetLevel st 0).sent
      = st.sent ++ (if st.waiters.isEmpty then
          ["LOAD " ++ toString st.closeVid ++ " 100", "LOAD " ++ toString st.closeVid ++ " 0"]
        else ["LOAD " ++ toString st.closeVid ++ " 0"])
    ∧ (s3SetLevel st 100).sent
      = st.sent ++ (if st.waiters.isEmpty then
          ["LOAD " ++ toString st.openVid ++ " 100", "LOAD " ++ toString st.openVid ++ " 0"]
        else ["LOAD " ++ toString st.openVid ++ " 0"]) := by
  refine ⟨by simp [s3SetLevel, h0, h100], ?_, ?_, ?_, ?_⟩
  · simp [s3SetLevel]
  · simp [s3SetLevel]
  · simp only [s3SetLevel, if_pos rfl]
    simp [s3Close, s3Request, s3StartClose]
    split_ifs <;> simp
  · have : (100 : ℚ) ≠ 0 := by norm_num
    simp only [s3SetLevel, if_neg this, if_pos rfl]
    simp [s3Open, s3Request, s3StartOpen]
    split_ifs <;> simp

/-- C10 witness: an intermediate level on a concrete composite shade changes
nothing, and the extreme levels cache and pulse. -/
theorem shade3_level_setter_frame_witness :
    s3SetLevel exShade3 50 = exShade3
    ∧ (s3SetLevel exShade3 0).level = some 0
    ∧ (s3SetLevel exShade3 100).level = some 100
    ∧ (s3SetLevel exShade3 0).sent
      = exShade3.sent ++ (if exShade3.waiters.isEmpty then
          ["LOAD " ++ toString exShade3.closeVid ++ " 100",
           "LOAD " ++ toString exShade3.closeVid ++ " 0"]
        else ["LOAD " ++ toString exShade3.closeVid ++ " 0"])
    ∧ (s3SetLevel exShade3 100).sent
      = exShade3.sent ++ (if exShade3.waiters.isEmpty then
          ["LOAD " ++ toString exShade3.openVid ++ " 100",
           "LOAD " ++ toString exShade3.openVid ++ " 0"]
        else ["LOAD " ++ toString exShade3.openVid ++ " 0"]) :=
  shade3_level_setter_frame exShade3 50 (by norm_num) (by norm_num)

/-!
Frame lemmas for the dispatcher proofs: the observations of one output that
the level-propagation code can touch, and which operations preserve them.
-/

theorem levelAt_eq_some (s : VState) (n : Nat) (q : ℚ) :
    levelAt s n = some q ↔ ∃ o, oget s.outputs n = some o ∧ o.level = q := by
  unfold levelAt
  cases oget s.outputs n <;> simp

theorem oget_cons (a : Nat) (b : Output) (t : List (Nat × Output)) (j : Nat) :
    oget ((a, b) :: t) j = if a = j then some b else oget t j := by
  unfold oget
  by_cases h : a = j <;> simp [List.find?_cons, h]

theorem oset_cons (a : Nat) (b : Output) (t : List (Nat × Output)) (k : Nat)
    (f : Output → Output) :
    oset ((a, b) :: t) k f = (if a = k then (a, f b) else (a, b)) :: oset t k f := by
  unfold oset
  by_cases h : a = k <;> simp [h]

theorem oget_oset (m : List (Nat × Output)) (k j : Nat) (f : Output → Output) :
    oget (oset m k f) j = if j = k then (oget m j).map f else oget m j := by
  induction m with
  | nil => by_cases h : j = k <;> simp [oget, oset, h]
  | cons p t ih =>
    obtain ⟨a, b⟩ := p
    rw [oset_cons]
    by_cases hak : a = k
    · rw [if_pos hak, oget_cons, oget_cons]
      by_cases haj : a = j
      · have hjk : j = k := by rw [← haj, hak]
        rw [if_pos haj, if_pos haj, if_pos hjk]
        rfl
      · rw [if_neg haj, if_neg haj, ih]
    · rw [if_neg hak, oget_cons, oget_cons]
      by_cases haj : a = j
      · have hjk : ¬ j = k := fun h2 => hak (by rw [haj, h2])
        rw [if_pos haj, if_pos haj, if_neg hjk]
      · rw [if_neg haj, if_neg haj, ih]

theorem levelAt_setOut (s : VState) (v n : Nat) (f : Output → Output)
    (hf : ∀ o, (f o).level = o.level) :
    levelAt (setOut s v f) n = levelAt s n := by
  unfold levelAt setOut
  simp only [oget_oset]
  by_cases h : n = v
  · simp only [h, if_pos rfl]
    cases oget s.outputs v <;> simp [hf]
  · simp [h]

theorem waitersAt_setOut (s : VState) (v n : Nat) (f : Output → Output)
    (hf : ∀ o, (f o).waiters = o.waiters) :
    waitersAt (setOut s v f) n = waitersAt s n := by
  unfold waitersAt setOut
  simp only [oget_oset]
  by_cases h : n = v
  · simp only [h, if_pos rfl]
    cases oget s.outputs v <;> simp [hf]
  · simp [h]

theorem gAt_setOut (s : VState) (v n : Nat) (f : Output → Output)
    (hf : ∀ o, (f o).isGroup = o.isGroup ∧ (f o).brightnessVid = o.brightnessVid) :
    gAt (setOut s v f) n = gAt s n := by
  unfold gAt setOut
  simp only [oget_oset]
  by_cases h : n = v
  · simp only [h, if_pos rfl]
    cases oget s.outputs v <;> simp [fun o => (hf o).1, fun o => (hf o).2]
  · simp [h]

theorem levelAt_vsend (s : VState) (c : String) (n : Nat) :
    levelAt (vsend s c) n = levelAt s n := rfl

theorem rgbFan_frame (o : Output) (l : List Nat) (s : VState) :
    (l.foldl (rgbFanStep o) s).outputs = s.outputs
    ∧ (l.foldl (rgbFanStep o) s).eventsSet = s.eventsSet
    ∧ (l.foldl (rgbFanStep o) s).brightToGroup = s.brightToGroup
    ∧ (l.foldl (rgbFanStep o) s).subscribers = s.subscribers := by
  induction l generalizing s with
  | nil => exact ⟨rfl, rfl, rfl, rfl⟩
  | cons lv t ih =>
    have hstep : (rgbFanStep o s lv).outputs = s.outputs
        ∧ (rgbFanStep o s lv).eventsSet = s.eventsSet
        ∧ (rgbFanStep o s lv).brightToGroup = s.brightToGroup
        ∧ (rgbFanStep o s lv).subscribers = s.subscribers := by
      unfold rgbFanStep
      cases oget s.outputs lv with
      | none => exact ⟨rfl, rfl, rfl, rfl⟩
      | some l2 =>
        dsimp only
        by_cases h : l2.dmxColor = true ∨ l2.loadType = "DW"
        · rw [if_pos h]
          exact ⟨rfl, rfl, rfl, rfl⟩
        · rw [if_neg h]
          exact ⟨rfl, rfl, rfl, rfl⟩
    have h2 := ih (rgbFanStep o s lv)
    simp only [List.foldl_cons]
    exact ⟨h2.1.trans hstep.1, h2.2.1.trans hstep.2.1,
           h2.2.2.1.trans hstep.2.2.1, h2.2.2.2.trans hstep.2.2.2⟩

theorem levelAt_vsend2 (s : VState) (c : String) (n : Nat) :
    levelAt (vsend s c) n = levelAt s n := rfl

theorem invokeRgbOutput_frame (s : VState) (v n : Nat) :
    levelAt (invokeRgbOutput s v) n = levelAt s n
    ∧ waitersAt (invokeRgbOutput s v) n = waitersAt s n
    ∧ gAt (invokeRgbOutput s v) n = gAt s n
    ∧ (invokeRgbOutput s v).eventsSet = s.eventsSet
    ∧ (invokeRgbOutput s v).brightToGroup = s.brightToGroup
    ∧ (invokeRgbOutput s v).subscribers = s.subscribers := by
  unfold invokeRgbOutput
  cases hv : oget s.outputs v with
  | none => exact ⟨rfl, rfl, rfl, rfl, rfl, rfl⟩
  | some o =>
    dsimp only
    split
    · split
      · exact ⟨levelAt_setOut _ _ _ _ (fun o2 => rfl),
               waitersAt_setOut _ _ _ _ (fun o2 => rfl),
               gAt_setOut _ _ _ _ (fun o2 => ⟨rfl, rfl⟩), rfl, rfl, rfl⟩
      · exact ⟨levelAt_setOut _ _ _ _ (fun o2 => rfl),
               waitersAt_setOut _ _ _ _ (fun o2 => rfl),
               gAt_setOut _ _ _ _ (fun o2 => ⟨rfl, rfl⟩), rfl, rfl, rfl⟩
    · split
      · exact ⟨rfl, rfl, rfl, rfl, rfl, rfl⟩
      · exact ⟨rfl, rfl, rfl, rfl, rfl, rfl⟩

theorem invokeRgbGroup_frame (s : VState) (v n : Nat) :
    levelAt (invokeRgbGroup s v) n = levelAt s n
    ∧ waitersAt (invokeRgbGroup s v) n = waitersAt s n
    ∧ gAt (invokeRgbGroup s v) n = gAt s n
    ∧ (invokeRgbGroup s v).eventsSet = s.eventsSet
    ∧ (invokeRgbGroup s v).brightToGroup = s.brightToGroup
    ∧ (invokeRgbGroup s v).subscribers = s.subscribers := by
  unfold invokeRgbGroup
  cases hv : oget s.outputs v with
  | none => exact ⟨rfl, rfl, rfl, rfl, rfl, rfl⟩
  | some o =>
    dsimp only
    have hf := rgbFan_frame o o.loadVids s
    have hlev : levelAt (o.loadVids.foldl (rgbFanStep o) s) n = levelAt s n := by
      unfold levelAt
      rw [hf.1]
    have hwai : waitersAt (o.loadVids.foldl (rgbFanStep o) s) n = waitersAt s n := by
      unfold waitersAt
      rw [hf.1]
    have hgat : gAt (o.loadVids.foldl (rgbFanStep o) s) n = gAt s n := by
      unfold gAt
      rw [hf.1]
    split
    · refine ⟨?_, ?_, ?_, hf.2.1, hf.2.2.1, hf.2.2.2⟩
      · exact (levelAt_setOut _ v n (fun x => { x with rgbIsDirty := false })
          (fun o2 => rfl)).trans hlev
      · exact (waitersAt_setOut _ v n (fun x => { x with rgbIsDirty := false })
          (fun o2 => rfl)).trans hwai
      · exact (gAt_setOut _ v n (fun x => { x with rgbIsDirty := false })
          (fun o2 => ⟨rfl, rfl⟩)).trans hgat
    · exact ⟨hlev, hwai, hgat, hf.2.1, hf.2.2.1, hf.2.2.2⟩

theorem invokeRgb_frame (s : VState) (v n : Nat) :
    levelAt (invokeRgb s v) n = levelAt s n
    ∧ waitersAt (invokeRgb s v) n = waitersAt s n
    ∧ gAt (invokeRgb s v) n = gAt s n
    ∧ (invokeRgb s v).eventsSet = s.eventsSet
    ∧ (invokeRgb s v).brightToGroup = s.brightToGroup
    ∧ (invokeRgb s v).subscribers = s.subscribers := by
  unfold invokeRgb
  cases hv : oget s.outputs v with
  | none => exact ⟨rfl, rfl, rfl, rfl, rfl, rfl⟩
  | some o =>
    dsimp only
    split
    · exact invokeRgbGroup_frame s v n
    · exact invokeRgbOutput_frame s v n

theorem notify_levelAt (s : VState) (v n : Nat) :
    levelAt (notifyWaiters s v) n = levelAt s n := by
  unfold notifyWaiters
  cases hv : oget s.outputs v with
  | none => rfl
  | some o =>
    dsimp only
    exact levelAt_setOut s v n (fun x => { x with waiters := [] }) (fun o2 => rfl)

theorem notify_gAt (s : VState) (v n : Nat) :
    gAt (notifyWaiters s v) n = gAt s n := by
  unfold notifyWaiters
  cases hv : oget s.outputs v with
  | none => rfl
  | some o =>
    dsimp only
    exact gAt_setOut s v n (fun x => { x with waiters := [] }) (fun o2 => ⟨rfl, rfl⟩)

theorem notify_events_mono (s : VState) (v : Nat) :
    ∀ e ∈ s.eventsSet, e ∈ (notifyWaiters s v).eventsSet := by
  unfold notifyWaiters
  cases hv : oget s.outputs v with
  | none => exact fun e he => he
  | some o =>
    intro e he
    exact List.mem_append_left _ he

theorem notify_events_eq (s : VState) (v : Nat) (o : Output)
    (hv : oget s.outputs v = some o) :
    (notifyWaiters s v).eventsSet = s.eventsSet ++ o.waiters := by
  unfold notifyWaiters
  rw [hv]

theorem notify_brightToGroup (s : VState) (v : Nat) :
    (notifyWaiters s v).brightToGroup = s.brightToGroup := by
  unfold notifyWaiters
  cases oget s.outputs v <;> rfl

theorem notify_subscribers (s : VState) (v : Nat) :
    (notifyWaiters s v).subscribers = s.subscribers := by
  unfold notifyWaiters
  cases oget s.outputs v <;> rfl

theorem core_frame (s : VState) (v n : Nat) (L : ℚ) :
    gAt (setLevelOutputCore s v L) n = gAt s n
    ∧ waitersAt (setLevelOutputCore s v L) n = waitersAt s n
    ∧ (setLevelOutputCore s v L).eventsSet = s.eventsSet
    ∧ (setLevelOutputCore s v L).brightToGroup = s.brightToGroup
    ∧ (setLevelOutputCore s v L).subscribers = s.subscribers := by
  unfold setLevelOutputCore
  cases hv : oget s.outputs v with
  | none => exact ⟨rfl, rfl, rfl, rfl, rfl⟩
  | some o =>
    dsimp only
    split
    · exact ⟨rfl, rfl, rfl, rfl, rfl⟩
    · have h1g : gAt (setOut s v (fun x => { x with level := L })) n = gAt s n :=
        gAt_setOut s v n _ (fun o2 => ⟨rfl, rfl⟩)
      have h1w : waitersAt (setOut s v (fun x => { x with level := L })) n = waitersAt s n :=
        waitersAt_setOut s v n _ (fun o2 => rfl)
      have h2 := invokeRgb_frame (setOut s v (fun x => { x with level := L })) v n
      split
      · split
        · exact ⟨h2.2.2.1.trans h1g, h2.2.1.trans h1w, h2.2.2.2.1,
                 h2.2.2.2.2.1, h2.2.2.2.2.2⟩
        · exact ⟨h1g, h1w, rfl, rfl, rfl⟩
      · split
        · exact ⟨h2.2.2.1.trans h1g, h2.2.1.trans h1w, h2.2.2.2.1,
                 h2.2.2.2.2.1, h2.2.2.2.2.2⟩
        · exact ⟨h1g, h1w, rfl, rfl, rfl⟩

theorem core_levelAt_write (s : VState) (v : Nat) (L : ℚ) (o : Output)
    (hv : oget s.outputs v = some o) :
    levelAt (setLevelOutputCore s v L) v = some L := by
  unfold setLevelOutputCore
  rw [hv]
  dsimp only
  split
  · rename_i hL
    unfold levelAt
    rw [hv]
    simp [hL]
  · have h1 : levelAt (setOut s v (fun x => { x with level := L })) v = some L := by
      unfold levelAt setOut
      rw [oget_oset]
      simp [hv]
    have h2 := invokeRgb_frame (setOut s v (fun x => { x with level := L })) v v
    split
    · split
      · exact h2.1.trans h1
      · exact h1
    · split
      · exact h2.1.trans h1
      · exact h1

theorem core_levelAt_other (s : VState) (v n : Nat) (L : ℚ) (h : ¬ n = v) :
    levelAt (setLevelOutputCore s v L) n = levelAt s n := by
  unfold setLevelOutputCore
  cases hv : oget s.outputs v with
  | none => rfl
  | some o =>
    dsimp only
    split
    · rfl
    · have h1 : levelAt (setOut s v (fun x => { x with level := L })) n = levelAt s n := by
        unfold levelAt setOut
        rw [oget_oset]
        simp [h]
      have h2 := invokeRgb_frame (setOut s v (fun x => { x with level := L })) v n
      split
      · split
        · exact h2.1.trans h1
        · exact h1
      · split
        · exact h2.1.trans h1
        · exact h1

theorem core_levelAt_keep (s : VState) (v n : Nat) (L : ℚ)
    (hn : levelAt s n = some L) :
    levelAt (setLevelOutputCore s v L) n = some L := by
  by_cases h : n = v
  · subst h
    obtain ⟨o, ho, _⟩ := (levelAt_eq_some s n L).mp hn
    exact core_levelAt_write s n L o ho
  · exact (core_levelAt_other s v n L h).trans hn

theorem core_noop (s : VState) (v : Nat) (o : Output) (L : ℚ)
    (hv : oget s.outputs v = some o) (hL : o.level = L) :
    setLevelOutputCore s v L = s := by
  unfold setLevelOutputCore
  rw [hv]
  dsimp only
  rw [if_pos hL]

theorem setLevelD_plain (fuel : Nat) (s : VState) (v : Nat) (L : ℚ) (o : Output)
    (hv : oget s.outputs v = some o) (hg : o.isGroup = false) :
    setLevelD (fuel + 1) s v L = Except.ok (setLevelOutputCore s v L) := by
  unfold setLevelD
  rw [hv]
  dsimp only
  rw [if_neg (by simp [hg])]

theorem setLevelD_group (fuel : Nat) (s : VState) (g m : Nat) (L : ℚ)
    (grec mrec : Output)
    (hg : oget s.outputs g = some grec) (hgr : grec.isGroup = true)
    (hb : grec.brightnessVid = some m) (hm0 : m ≠ 0)
    (hm : oget s.outputs m = some mrec) (hmg : mrec.isGroup = false) :
    setLevelD (fuel + 1 + 1) s g L
      = Except.ok (setLevelOutputCore (setLevelOutputCore s m L) g L) := by
  unfold setLevelD
  rw [hg]
  dsimp only
  rw [if_pos hgr, hb]
  dsimp only
  rw [if_pos hm0, hm]
  dsimp only
  rw [setLevelD_plain fuel s m L mrec hm hmg]

theorem setLevelD_keep (fuel : Nat) :
    ∀ (s : VState) (v : Nat) (L : ℚ) (s2 : VState),
      setLevelD fuel s v L = Except.ok s2 →
      (∀ n, levelAt s n = some L → levelAt s2 n = some L)
      ∧ s2.eventsSet = s.eventsSet := by
  induction fuel with
  | zero =>
    intro s v L s2 h
    exact absurd h (by simp [setLevelD])
  | succ fuel ih =>
    intro s v L s2 h
    unfold setLevelD at h
    cases hv : oget s.outputs v with
    | none =>
      rw [hv] at h
      cases h
      exact ⟨fun n hn => hn, rfl⟩
    | some o =>
      rw [hv] at h
      dsimp only at h
      by_cases hgrp : o.isGroup = true
      · rw [if_pos hgrp] at h
        cases hb : o.brightnessVid with
        | none =>
          rw [hb] at h
          dsimp only at h
          cases h
          exact ⟨fun n hn => core_levelAt_keep s v n L hn, (core_frame s v 0 L).2.2.1⟩
        | some m =>
          rw [hb] at h
          dsimp only at h
          by_cases hm0 : m ≠ 0
          · rw [if_pos hm0] at h
            cases hm : oget s.outputs m with
            | none =>
              rw [hm] at h
              cases h
            | some mrec =>
              rw [hm] at h
              dsimp only at h
              cases hrec : setLevelD fuel s m L with
              | error e =>
                rw [hrec] at h
                cases h
              | ok s1 =>
                rw [hrec] at h
                dsimp only at h
                cases h
                have hinner := ih s m L s1 hrec
                refine ⟨fun n hn => core_levelAt_keep s1 v n L (hinner.1 n hn), ?_⟩
                exact ((core_frame s1 v 0 L).2.2.1).trans hinner.2
          · rw [if_neg hm0] at h
            cases h
            exact ⟨fun n hn => core_levelAt_keep s v n L hn, (core_frame s v 0 L).2.2.1⟩
      · rw [if_neg hgrp] at h
        cases h
        exact ⟨fun n hn => core_levelAt_keep s v n L hn, (core_frame s v 0 L).2.2.1⟩

theorem waitersAt_eq_some (s : VState) (n : Nat) (w : List Nat) :
    waitersAt s n = some w ↔ ∃ o, oget s.outputs n = some o ∧ o.waiters = w := by
  unfold waitersAt
  cases oget s.outputs n <;> simp

theorem gAt_eq_some (s : VState) (n : Nat) (p : Bool × Option Nat) :
    gAt s n = some p ↔ ∃ o, oget s.outputs n = some o ∧ o.isGroup = p.1
      ∧ o.brightnessVid = p.2 := by
  unfold gAt
  cases oget s.outputs n with
  | none => simp
  | some o =>
    obtain ⟨pb, pv⟩ := p
    constructor
    · intro h
      simp at h
      exact ⟨o, rfl, h.1, h.2⟩
    · rintro ⟨o2, ho2, h1, h2⟩
      cases ho2
      simp [h1, h2]

theorem condInvoke_frame (s : VState) (v n : Nat) (c : Prop) [Decidable c] :
    levelAt (if c then invokeRgb s v else s) n = levelAt s n
    ∧ waitersAt (if c then invokeRgb s v else s) n = waitersAt s n
    ∧ gAt (if c then invokeRgb s v else s) n = gAt s n
    ∧ (if c then invokeRgb s v else s).eventsSet = s.eventsSet
    ∧ (if c then invokeRgb s v else s).brightToGroup = s.brightToGroup
    ∧ (if c then invokeRgb s v else s).subscribers = s.subscribers := by
  split
  · exact invokeRgb_frame s v n
  · exact ⟨rfl, rfl, rfl, rfl, rfl, rfl⟩

theorem doQuery_levelAt (s : VState) (v n : Nat) :
    levelAt (doQueryLevel s v) n = levelAt s n := by
  unfold doQueryLevel
  cases hv : oget s.outputs v with
  | none => rfl
  | some o =>
    dsimp only
    split
    · exact levelAt_setOut _ v n (fun x => { x with addedStatus := true }) (fun o2 => rfl)
    · rfl

theorem subWrap_eventsSet (s : VState) (c : Prop) [Decidable c] (x : List Nat) :
    (if c then { s with notified := x } else s).eventsSet = s.eventsSet := by
  split <;> rfl

theorem subWrap_levelAt (s : VState) (c : Prop) [Decidable c] (x : List Nat) (n : Nat) :
    levelAt (if c then { s with notified := x } else s) n = levelAt s n := by
  split <;> rfl

theorem recv_sload (s : VState) (idTok lvlTok : String)
    (h3 : pyIsdigit idTok = true) (h5 : sepFree idTok = true)
    (h6 : sepFree lvlTok = true) (o : Output)
    (hout : oget s.outputs (digitsToNat idTok.data) = some o) :
    recv s ("S:LOAD " ++ idTok ++ " " ++ lvlTok)
      = handleUpdateAndNotify s (digitsToNat idTok.data) [lvlTok] := by
  have e1 : ∀ a b : String, (a ++ b).data = a.data ++ b.data := strDataAppend
  have hdata : ("S:LOAD " ++ idTok ++ " " ++ lvlTok).data
      = 'S' :: ':' :: ("LOAD".data ++ (' ' :: (idTok.data ++ ' ' :: lvlTok.data))) := by
    rw [e1, e1, e1]
    show ['S', ':', 'L', 'O', 'A', 'D', ' '] ++ idTok.data ++ [' '] ++ lvlTok.data
        = 'S' :: ':' :: (['L', 'O', 'A', 'D'] ++ (' ' :: (idTok.data ++ ' ' :: lvlTok.data)))
    simp [List.append_assoc]
  have hsplit : pySplitL ("LOAD".data ++ (' ' :: (idTok.data ++ ' ' :: lvlTok.data)))
      = ["LOAD".data, idTok.data, lvlTok.data] := by
    rw [pySplitL_append_sep _ _ (by decide), pySplitL_append_sep _ _ h5,
        pySplitL_sepFree _ h6]
  unfold recv
  rw [hdata]
  rw [if_neg (by simp)]
  rw [List.headD_cons]
  rw [if_neg (by decide), if_pos rfl]
  show recvRest s false sCmdsList
      ("LOAD".data ++ (' ' :: (idTok.data ++ ' ' :: lvlTok.data))) = _
  unfold recvRest
  rw [hsplit]
  simp only [List.map_cons, List.map_nil, strMkData]
  rw [if_neg (by decide), if_neg (by decide), if_neg (by decide),
      if_neg (by decide), if_neg (by decide), if_neg (by decide),
      if_neg (by decide)]
  unfold route
  rw [if_neg (by decide), h3]
  rw [if_neg (by decide)]
  dsimp only
  rw [hout]
  dsimp only
  rw [if_pos (Or.inl rfl)]

theorem handleUpdate_sload (s : VState) (n : Nat) (lvlTok : String) (q : ℚ)
    (out : Output) (h1 : oget s.outputs n = some out)
    (h2 : out.outputType ≠ "COLOR") (h7 : pyFloat lvlTok = some q)
    (h8 : brightConsistent s n out) :
    ∃ s2, handleUpdateAndNotify s n [lvlTok] = Except.ok s2
      ∧ levelAt s2 n = some q
      ∧ ∀ e ∈ out.waiters, e ∈ s2.eventsSet := by
  unfold handleUpdateAndNotify handleUpdateOutput
  rw [h1]
  dsimp only
  rw [h7]
  dsimp only
  rw [if_neg h2]
  have hS1lev : levelAt (setOut s n (fun x => { x with level := q })) n = some q := by
    unfold levelAt setOut
    rw [oget_oset]
    simp [h1]
  have hS1wai : waitersAt (setOut s n (fun x => { x with level := q })) n
      = some out.waiters := by
    unfold waitersAt setOut
    rw [oget_oset]
    simp [h1]
  have hS1g : ∀ j, gAt (setOut s n (fun x => { x with level := q })) j = gAt s j :=
    fun j => gAt_setOut s n j _ (fun o2 => ⟨rfl, rfl⟩)
  have hC := fun j => condInvoke_frame (setOut s n (fun x => { x with level := q })) n j
    (0 < q ∧ out.rgbIsDirty = true)
  obtain ⟨o2, ho2, hw2⟩ := (waitersAt_eq_some _ n out.waiters).mp
    ((hC n).2.1.trans hS1wai)
  have hbg : (notifyWaiters (if 0 < q ∧ out.rgbIsDirty = true then
      invokeRgb (setOut s n (fun x => { x with level := q })) n
      else setOut s n (fun x => { x with level := q })) n).brightToGroup
      = s.brightToGroup :=
    (notify_brightToGroup _ n).trans (hC 0).2.2.2.2.1
  rw [hbg]
  have hl3 : levelAt (notifyWaiters (if 0 < q ∧ out.rgbIsDirty = true then
      invokeRgb (setOut s n (fun x => { x with level := q })) n
      else setOut s n (fun x => { x with level := q })) n) n = some q :=
    (notify_levelAt _ n n).trans ((hC n).1.trans hS1lev)
  cases hlk : lookupNat s.brightToGroup n with
  | none =>
    dsimp only
    refine ⟨_, rfl, ?_, ?_⟩
    · exact (subWrap_levelAt _ _ _ n).trans hl3
    · intro e he
      rw [subWrap_eventsSet, notify_events_eq _ n o2 ho2]
      refine List.mem_append_right _ ?_
      rw [hw2]
      exact he
  | some bvid =>
    dsimp only
    by_cases hb0 : bvid = 0
    · rw [if_neg (by simp [hb0])]
      refine ⟨_, rfl, ?_, ?_⟩
      · exact (subWrap_levelAt _ _ _ n).trans hl3
      · intro e he
        rw [subWrap_eventsSet, notify_events_eq _ n o2 ho2]
        refine List.mem_append_right _ ?_
        rw [hw2]
        exact he
    · rw [if_pos hb0]
      obtain ⟨houtg, hn0, grec, hgrec, hgg, hgb⟩ := h8 bvid hlk hb0
      have hgs : gAt s bvid = some (true, some n) := by
        unfold gAt
        rw [hgrec]
        simp [hgg, hgb]
      have hg3 : gAt (notifyWaiters (if 0 < q ∧ out.rgbIsDirty = true then
          invokeRgb (setOut s n (fun x => { x with level := q })) n
          else setOut s n (fun x => { x with level := q })) n) bvid
          = some (true, some n) :=
        ((notify_gAt _ n bvid).trans ((hC bvid).2.2.1.trans (hS1g bvid))).trans hgs
      obtain ⟨grec3, hgrec3, hgg3, hgb3⟩ := (gAt_eq_some _ bvid (true, some n)).mp hg3
      rw [hgrec3]
      dsimp only
      obtain ⟨o3, ho3, ho3l⟩ := (levelAt_eq_some _ n q).mp hl3
      have hgsn : gAt s n = some (out.isGroup, out.brightnessVid) := by
        unfold gAt
        rw [h1]
        rfl
      have hg3n : gAt (notifyWaiters (if 0 < q ∧ out.rgbIsDirty = true then
          invokeRgb (setOut s n (fun x => { x with level := q })) n
          else setOut s n (fun x => { x with level := q })) n) n
          = some (out.isGroup, out.brightnessVid) :=
        ((notify_gAt _ n n).trans ((hC n).2.2.1.trans (hS1g n))).trans hgsn
      obtain ⟨o3b, ho3b, hgi3, hbv3⟩ := (gAt_eq_some _ n _).mp hg3n
      have ho3eq : o3b = o3 := Option.some.inj (ho3b.symm.trans ho3)
      have ho3g : o3.isGroup = false := by
        rw [← ho3eq, hgi3, houtg]
      rw [show setLevelFuel = 998 + 1 + 1 from by decide]
      rw [setLevelD_group 998 _ bvid n q grec3 o3 hgrec3 hgg3 hgb3 hn0 ho3 ho3g]
      rw [core_noop _ n o3 q ho3 ho3l]
      dsimp only
      refine ⟨_, rfl, ?_, ?_⟩
      · exact (subWrap_levelAt _ _ _ n).trans
          ((notify_levelAt _ bvid n).trans (core_levelAt_keep _ bvid n q hl3))
      · intro e he
        rw [subWrap_eventsSet]
        refine notify_events_mono _ bvid e ?_
        rw [(core_frame _ bvid 0 q).2.2.1, notify_events_eq _ n o2 ho2]
        refine List.mem_append_right _ ?_
        rw [hw2]
        exact he

/-- C2 counterexample: a status level line for a registered COLOR output (its
paired load absent) leaves the dispatcher state entirely unchanged: the
cached level stays 0 instead of becoming 50 and the registered waiter event 1
is never set. -/
theorem recv_sload_color_output_not_updated :
    recv exStateColor "S:LOAD 10 50" = Except.ok exStateColor
    ∧ levelAt exStateColor 10 = some 0
    ∧ pyFloat "50" = some 50
    ∧ waitersAt exStateColor 10 = some [1]
    ∧ exStateColor.eventsSet = [] := by
  refine ⟨by decide, by decide, ?_, by decide, by decide⟩
  have h : pyFloat "50" = some (1 * ((50 : Nat) : ℚ)) := rfl
  rw [h]
  norm_num

/-- C2 amended: for every well-formed status level line whose id is
registered as an Output of non-COLOR output type (with the parser-established
consistency of the brightness back-map), dispatching the line caches the
parsed numeric level on that output and sets the event of every waiter that
was registered on its query helper. -/
theorem recv_sload_updates_level (s : VState) (idTok lvlTok : String) (q : ℚ)
    (out : Output)
    (h3 : pyIsdigit idTok = true) (h5 : sepFree idTok = true)
    (h6 : sepFree lvlTok = true) (h7 : pyFloat lvlTok = some q)
    (h1 : oget s.outputs (digitsToNat idTok.data) = some out)
    (h2 : out.outputType ≠ "COLOR")
    (h8 : brightConsistent s (digitsToNat idTok.data) out) :
    ∃ s2, recv s ("S:LOAD " ++ idTok ++ " " ++ lvlTok) = Except.ok s2
      ∧ levelAt s2 (digitsToNat idTok.data) = some q
      ∧ ∀ e ∈ out.waiters, e ∈ s2.eventsSet := by
  rw [recv_sload s idTok lvlTok h3 h5 h6 out h1]
  exact handleUpdate_sload s _ lvlTok q out h1 h2 h7 h8

/-- C2 witness: a status line for the plain output with vid 7 and level 25
caches level 25 and wakes its two waiters. -/
theorem recv_sload_updates_level_witness :
    ∃ s2, recv exStatePlain ("S:LOAD " ++ "7" ++ " " ++ "25") = Except.ok s2
      ∧ levelAt s2 (digitsToNat "7".data) = some 25
      ∧ ∀ e ∈ exOutPlain.waiters, e ∈ s2.eventsSet :=
  recv_sload_updates_level exStatePlain "7" "25" 25 exOutPlain
    (by decide) (by decide) (by decide)
    (by
      have h : pyFloat "25" = some (1 * ((25 : Nat) : ℚ)) := rfl
      rw [h]
      norm_num)
    (by decide) (by decide)
    (fun g hg _ => by simp [lookupNat, exStatePlain] at hg)

/-- C8: a load group of exactly two member loads of which exactly one is
color-capable delegates its level to the non-color member: the brightness
member is that non-color member, reading the group level returns the cached
level of that member, and writing a level through the group setter stores it
in that member's cached level. -/
theorem load_group_brightness_delegation (s : VState) (g a b c m : Nat)
    (grec mrec : Output) (L : ℚ)
    (hg : oget s.outputs g = some grec)
    (hgrp : grec.isGroup = true)
    (hlv : grec.loadVids = [a, b]) (hcv : grec.colorVids = [c])
    (hbv : grec.brightnessVid = loadGroupBrightnessVid grec.loadVids grec.colorVids)
    (hm : loadGroupBrightnessVid [a, b] [c] = some m)
    (hm0 : m ≠ 0)
    (hmem : oget s.outputs m = some mrec) (hmg : mrec.isGroup = false) :
    m = (if a = c then b else a)
    ∧ (∃ s2, getLevelGroup s g = Except.ok (s2, mrec.level))
    ∧ (∃ s3, setLevelD setLevelFuel s g L = Except.ok s3 ∧ levelAt s3 m = some L) := by
  have hbm : grec.brightnessVid = some m := by rw [hbv, hlv, hcv, hm]
  have hform : loadGroupBrightnessVid [a, b] [c] = if a = c then some b else some a := rfl
  refine ⟨?_, ?_, ?_⟩
  · rw [hform] at hm
    by_cases hac : a = c
    · rw [if_pos hac] at hm
      rw [if_pos hac]
      exact (Option.some.inj hm).symm
    · rw [if_neg hac] at hm
      rw [if_neg hac]
      exact (Option.some.inj hm).symm
  · unfold getLevelGroup
    rw [hg]
    dsimp only
    rw [hbm]
    dsimp only
    rw [if_pos hm0]
    unfold getLevelOutput
    rw [hmem]
    dsimp only
    have hl1 : levelAt { s with
        nextEv := s.nextEv + 1
        outputs := oset s.outputs m (fun x => { x with waiters := x.waiters ++ [s.nextEv] }) } m
        = some mrec.level := by
      unfold levelAt
      dsimp only
      rw [oget_oset]
      simp [hmem]
    have hl2 : levelAt (if mrec.waiters.isEmpty = true then
        doQueryLevel { s with
          nextEv := s.nextEv + 1
          outputs := oset s.outputs m (fun x => { x with waiters := x.waiters ++ [s.nextEv] }) } m
        else { s with
          nextEv := s.nextEv + 1
          outputs := oset s.outputs m (fun x => { x with waiters := x.waiters ++ [s.nextEv] }) }) m
        = some mrec.level := by
      split
      · exact (doQuery_levelAt _ m m).trans hl1
      · exact hl1
    obtain ⟨o2, ho2, ho2l⟩ := (levelAt_eq_some _ m mrec.level).mp hl2
    rw [ho2]
    dsimp only
    rw [ho2l]
    exact ⟨_, rfl⟩
  · rw [show setLevelFuel = 998 + 1 + 1 from by decide]
    rw [setLevelD_group 998 s g m L grec mrec hg hgrp hbm hm0 hmem hmg]
    exact ⟨_, rfl, core_levelAt_keep _ g m L (core_levelAt_write s m L mrec hmem)⟩

/-- C8 witness: the concrete group of a dimmer (vid 1, level 5) and a color
load (vid 2): reads return the dimmer level and a write of 7 lands on the
dimmer. -/
theorem load_group_brightness_delegation_witness :
    (1 : Nat) = (if 1 = 2 then 2 else 1)
    ∧ (∃ s2, getLevelGroup exStateGroup 3 = Except.ok (s2, exMemberDim.level))
    ∧ (∃ s3, setLevelD setLevelFuel exStateGroup 3 (7 : ℚ) = Except.ok s3
        ∧ levelAt s3 1 = some 7) :=
  load_group_brightness_delegation exStateGroup 3 1 2 2 1 exGroup exMemberDim 7
    (by decide) (by decide) (by decide) (by decide) (by decide) (by decide)
    (by decide) (by decide) (by decide)

end PyVantage
